import Mathlib

/-!
Verification of the wakitsu watch pipeline: a shallow embedding of the
filename parser, the candidate resolver, the file-binding store, the
progress synchronizer and the file relocator, together with theorems
about the properties the specification states for them.

Sources embedded:
* `parseFansubFilename` / `serializeFansubFilename` / `truncateStr`
  (src/lib/utils, reproduced at the end of src/src/lib/watch.ts);
* `watchAnime`, `filterFansubFilenames`, `displayErrorTooManyFiles`,
  `validateCachedAnime`, `saveAnimeProgress`, `buildLibPatchReqArgs`,
  `tryCreateWatchedDir`, `moveFileToWatchedDir` (src/unnamed/part_000).

The Kitsu / Config collaborators (`updateAnime`, `getFileBinding`,
`setFileBinding`, `removeAnimeFromCache`, `Config.save`, the cache) are not
part of the given sources; they are modelled from the spec's contracts in
section 6, as noted on each definition.

JavaScript numbers that are known non-negative integers are modelled as
`Nat`; `NaN` results of `Number(...)` are modelled as `none : Option Nat`;
`undefined` values are `Option.none`.  Strings are ASCII in all inputs of
interest, so JavaScript `toLowerCase` is modelled by the character-wise
`strToLower` below.
-/

/-! ### Character classes of the JavaScript regular expressions -/

/-- JavaScript `\s` character class (ECMA-262 WhiteSpace ∪ LineTerminator). -/
def isJsSpace (c : Char) : Bool :=
  c = '\t' || c = '\n' || c = '\x0b' || c = '\x0c' || c = '\r' || c = ' ' ||
  c = ' ' || c = ' ' || (' ' ≤ c && c ≤ ' ') ||
  c = ' ' || c = ' ' || c = ' ' || c = ' ' ||
  c = '　' || c = '﻿'

/-- JavaScript `\w` character class: `[A-Za-z0-9_]`. -/
def isJsWord (c : Char) : Bool :=
  c.isAlpha || c.isDigit || c = '_'

/-- JavaScript `.` (dot): any character except a line terminator. -/
def isDotChar (c : Char) : Bool :=
  !(c = '\n' || c = '\r' || c = ' ' || c = ' ')

/-- The character class `[\w|\d|\s-]` of the fansub-tag capture group. -/
def isTagChar (c : Char) : Bool :=
  isJsWord c || c = '|' || isJsSpace c || c = '-'

/-- Does `p` occur at the very front of `cs`? -/
def startsWithSeq : List Char → List Char → Bool
  | [], _ => true
  | _ :: _, [] => false
  | p :: ps, c :: cs => p = c && startsWithSeq ps cs

/-- Does `pat` occur contiguously anywhere inside `cs`? -/
def occursIn (pat : List Char) : List Char → Bool
  | [] => startsWithSeq pat []
  | c :: cs => startsWithSeq pat (c :: cs) || occursIn pat cs

/-- JavaScript `String.prototype.includes`: contiguous-substring test. -/
def strIncludes (s pat : String) : Bool :=
  occursIn pat.data s.data

/-- JavaScript `toLowerCase`, character-wise (ASCII inputs); defined
structurally over the character list so it evaluates in the kernel. -/
def strToLower (s : String) : String :=
  String.mk (s.data.map Char.toLower)

/-- JavaScript `Number(s)` for the numeric tokens occurring here: a nonempty
all-digit string yields its decimal value, anything else yields `NaN`,
modelled as `none`. -/
def jsNumberNat (s : String) : Option Nat :=
  if s.data ≠ [] ∧ s.data.all Char.isDigit then
    some (s.data.foldl (fun n c => n * 10 + (c.toNat - '0'.toNat)) 0)
  else none

/-! ### The fansub filename grammar

The regular expression of `parseFansubFilename` (src/src/lib/watch.ts):

`/^\[([\w|\d|\s-]+)\]\s(.+)(\sS[0-9]{1,2})?\s([0-9]{2,4}|S([0-9]{2})E([0-9]{2,4})|[0-9]{2,4}v[0-9])(\s|\.)/gi`

It is embedded as a backtracking matcher specialised to this pattern,
reproducing the leftmost-greedy capture semantics of `RegExp.exec`:
quantifiers try the longest alternative first, the optional season group is
tried before being skipped, and alternatives are tried left to right.  The
`i` flag makes the literals `S`, `E` and `v` case-insensitive. -/

/-- Captures of a successful match of the fansub regular expression.
`g3` is the optional `(\sS[0-9]{1,2})` group (text including the leading
whitespace), `g4` the full episode token and `g56` the two inner captures of
the `S([0-9]{2})E([0-9]{2,4})` alternative, which occur together or not at
all. -/
structure FansubCaptures where
  fansub : String
  title : String
  g3 : Option String
  g4 : String
  g56 : Option (String × String)
  deriving DecidableEq, Repr

/-- Take exactly `n` decimal digits from the front of `cs`. -/
def takeDigits : Nat → List Char → Option (List Char × List Char)
  | 0, cs => some ([], cs)
  | _ + 1, [] => none
  | n + 1, c :: cs =>
    if c.isDigit then (takeDigits n cs).map (fun p => (c :: p.1, p.2)) else none

/-- The trailing `(\s|\.)` of the pattern: one whitespace or one dot must
follow the episode token. -/
def sepOk : List Char → Bool
  | [] => false
  | c :: _ => isJsSpace c || c = '.'

/-- Alternative `[0-9]{2,4}` followed by `(\s|\.)`, digits greedily. -/
def altPlainNum (cs : List Char) : Option (String × Option (String × String)) :=
  (match takeDigits 4 cs with
   | some (d, r) => if sepOk r then some (String.mk d, none) else none
   | none => none) <|>
  (match takeDigits 3 cs with
   | some (d, r) => if sepOk r then some (String.mk d, none) else none
   | none => none) <|>
  (match takeDigits 2 cs with
   | some (d, r) => if sepOk r then some (String.mk d, none) else none
   | none => none)

/-- Alternative `S([0-9]{2})E([0-9]{2,4})` followed by `(\s|\.)`. -/
def altSeasonEp (cs : List Char) : Option (String × Option (String × String)) :=
  match cs with
  | s :: rest =>
    if s = 'S' || s = 's' then
      match takeDigits 2 rest with
      | some (a, r1) =>
        match r1 with
        | e :: r2 =>
          if e = 'E' || e = 'e' then
            let tryLen : Nat → Option (String × Option (String × String)) := fun n =>
              match takeDigits n r2 with
              | some (b, r3) =>
                if sepOk r3 then
                  some (String.mk (s :: a ++ e :: b), some (String.mk a, String.mk b))
                else none
              | none => none
            tryLen 4 <|> tryLen 3 <|> tryLen 2
          else none
        | [] => none
      | none => none
    else none
  | [] => none

/-- Alternative `[0-9]{2,4}v[0-9]` followed by `(\s|\.)`. -/
def altVersionNum (cs : List Char) : Option (String × Option (String × String)) :=
  let tryLen : Nat → Option (String × Option (String × String)) := fun n =>
    match takeDigits n cs with
    | some (d, r1) =>
      match r1 with
      | v :: d1 :: r3 =>
        if (v = 'v' || v = 'V') && d1.isDigit && sepOk r3 then
          some (String.mk (d ++ [v, d1]), none)
        else none
      | _ => none
    | none => none
  tryLen 4 <|> tryLen 3 <|> tryLen 2

/-- The episode-token alternation
`([0-9]{2,4}|S([0-9]{2})E([0-9]{2,4})|[0-9]{2,4}v[0-9])(\s|\.)`,
alternatives tried left to right. -/
def altMatch (cs : List Char) : Option (String × Option (String × String)) :=
  altPlainNum cs <|> altSeasonEp cs <|> altVersionNum cs

/-- After the optional season group: `\s` then the episode alternation. -/
def afterSeasonGroup (cs : List Char) : Option (String × Option (String × String)) :=
  match cs with
  | w :: rest => if isJsSpace w then altMatch rest else none
  | [] => none

/-- The optional `(\sS[0-9]{1,2})?` group followed by the rest of the
pattern; the group is tried greedily (two digits, then one) before being
skipped. -/
def tailAfterTitle (cs : List Char) :
    Option (Option String × String × Option (String × String)) :=
  (match cs with
   | w :: s :: d1 :: d2 :: rest =>
     if isJsSpace w && (s = 'S' || s = 's') && d1.isDigit && d2.isDigit then
       (afterSeasonGroup rest).map (fun p => (some (String.mk [w, s, d1, d2]), p))
     else none
   | _ => none) <|>
  (match cs with
   | w :: s :: d1 :: rest =>
     if isJsSpace w && (s = 'S' || s = 's') && d1.isDigit then
       (afterSeasonGroup rest).map (fun p => (some (String.mk [w, s, d1]), p))
     else none
   | _ => none) <|>
  ((afterSeasonGroup cs).map (fun p => ((none : Option String), p)))

/-- The greedy `(.+)` title group: longer titles are tried before shorter
ones, as `RegExp.exec` would.  `titleRev` holds the title consumed so far,
reversed. -/
def titleLoop (titleRev : List Char) (cs : List Char) :
    Option (String × Option String × String × Option (String × String)) :=
  match cs with
  | [] => none
  | c :: rest =>
    if isDotChar c then
      let titleRev' := c :: titleRev
      match titleLoop titleRev' rest with
      | some r => some r
      | none =>
        (tailAfterTitle rest).map
          (fun p => (String.mk titleRev'.reverse, p.1, p.2.1, p.2.2))
    else none

/-- `RegExp.exec` of the fansub regular expression on `name` (anchored at
the start by `^`): the captures of the match, or `none` when the name does
not match. -/
def fansubExec (name : String) : Option FansubCaptures :=
  match name.data with
  | '[' :: rest =>
    let g1 := rest.takeWhile isTagChar
    let rest1 := rest.dropWhile isTagChar
    if g1.isEmpty then none
    else
      match rest1 with
      | ']' :: w :: rest2 =>
        if isJsSpace w then
          (titleLoop [] rest2).map (fun p =>
            { fansub := String.mk g1, title := p.1, g3 := p.2.1,
              g4 := p.2.2.1, g56 := p.2.2.2 })
        else none
      | _ => none
  | _ => none

/-! ### `serializeFansubFilename` and `parseFansubFilename` -/

/-- `FansubFilenameData` (src/src/lib/watch.ts).  `epNum = none` models the
`NaN` that `Number` produces on a version-suffixed token; `season = none`
models `undefined`. -/
structure FansubFilenameData where
  fansub : String
  title : String
  epNum : Option Nat
  paddedEpNum : String
  season : Option String
  deriving DecidableEq, Repr

/-- `epNumP.split('v')[0]`: the prefix before the first `v`. -/
def splitBeforeV (s : String) : String :=
  String.mk (s.data.takeWhile (fun c => c ≠ 'v'))

/-- The title clean-up of `serializeFansubFilename`:
`title[title.length - 1] == '-' ? title.substring(0, title.length - 2) : title`. -/
def trimTitle (t : String) : String :=
  match t.data.getLast? with
  | some '-' => String.mk (t.data.take (t.data.length - 2))
  | _ => t

/-- `serializeFansubFilename` (src/src/lib/watch.ts, lines 428-453). -/
def serializeFansubFilename (c : FansubCaptures) : FansubFilenameData :=
  match c.g56 with
  | some (seasonAlt, epNumAlt) =>
    { fansub := c.fansub, title := trimTitle c.title,
      epNum := jsNumberNat epNumAlt, paddedEpNum := epNumAlt,
      season := some seasonAlt }
  | none =>
    { fansub := c.fansub, title := trimTitle c.title,
      epNum := jsNumberNat c.g4,
      paddedEpNum := if c.g4.data.contains 'v' then splitBeforeV c.g4 else c.g4,
      season := c.g3 }

/-- The parse-failure record `{ parseError, fileName }`. -/
structure ParseErrorInfo where
  parseError : String
  fileName : String
  deriving DecidableEq, Repr

/-- Failure message for a batch release. -/
def batchMsg : String := "This is a batch file, which means the season is over."

/-- Failure message for an unsupported naming convention. -/
def unrecognizedMsg : String := "Try to find another fansub group."

/-- `name.toLowerCase().includes('(batch)') || name.toLowerCase().includes('[batch]')`. -/
def containsBatch (name : String) : Bool :=
  strIncludes (strToLower name) "(batch)" || strIncludes (strToLower name) "[batch]"

/-- `parseFansubFilename` (src/src/lib/watch.ts, lines 414-426). -/
def parseFansubFilename (name : String) : Except ParseErrorInfo FansubFilenameData :=
  match fansubExec name with
  | none =>
    .error { parseError := if containsBatch name then batchMsg else unrecognizedMsg,
             fileName := name }
  | some c => .ok (serializeFansubFilename c)

/-! ### Data model and collaborator contracts -/

/-- `KitsuCacheItem`: one row of the local cache of currently-watching
media, with the fields the watch pipeline reads and writes. -/
structure KitsuCacheItem where
  libID : String
  jpTitle : String
  enTitle : String
  synonyms : List String
  epProgress : Nat
  epCount : Nat
  deriving DecidableEq, Repr

/-- The persisted configuration state threaded through one invocation:
the anime cache, the `libraryId -> searchTitle` file bindings, and a
counter of `Config.save` calls (the persistence boundary). -/
structure SyncState where
  cache : List KitsuCacheItem
  fileBindings : List (String × String)
  saveCount : Nat
  deriving DecidableEq, Repr

/-- Modelled from the spec: `getBinding(libraryId) -> string | absent`
(section 4.3); the binding store is a persisted mapping looked up by
library id. -/
def getFileBinding (bindings : List (String × String)) (id : String) : Option String :=
  (bindings.find? (fun p => p.1 == id)).map (fun p => p.2)

/-- Modelled from the spec: `setBinding(libraryId, title)` (section 4.3);
records a binding for `id`.  The caller only invokes it when no binding
exists, so recording is modelled as appending the new pair. -/
def setFileBinding (bindings : List (String × String)) (id : String) (title : String) :
    List (String × String) :=
  bindings ++ [(id, title)]

/-- Modelled from the spec: `Kitsu.removeAnimeFromCache` removes the entry
from the cache ("series finished, untrack it", section 4.4); entries are
identified by their `libraryId` primary key (section 3). -/
def removeAnimeFromCache (cache : List KitsuCacheItem) (anime : KitsuCacheItem) :
    List KitsuCacheItem :=
  cache.filter (fun c => c.libID != anime.libID)

/-! ### Candidate resolver (src/unnamed/part_000) -/

/-- The cache filter of `watchAnime` (src/unnamed/part_000, lines 30-35):
an entry matches when the caller-supplied `epName` occurs in the lowercased
original title, the lowercased localized title, or a lowercased synonym. -/
def entryMatchesSearch (anime : KitsuCacheItem) (epName : String) : Bool :=
  strIncludes (strToLower anime.jpTitle) epName ||
  strIncludes (strToLower anime.enTitle) epName ||
  anime.synonyms.any (fun s => strIncludes (strToLower s) epName)

/-- `Kitsu.animeCache.filter(...)` of `watchAnime`. -/
def cacheFilterByName (cache : List KitsuCacheItem) (epName : String) :
    List KitsuCacheItem :=
  cache.filter (fun anime => entryMatchesSearch anime epName)

/-- `Kitsu.getFileBinding(validAnime.libID) ?? epName`
(src/unnamed/part_000, line 39): the search term for the candidate-file
scan. -/
def fileSearchTitle (bindings : List (String × String)) (libID : String)
    (epName : String) : String :=
  (getFileBinding bindings libID).getD epName

/-- The fatal failures of one invocation (each is a `process.exit(1)` in
the source).  `ambiguousFiles` carries the reported (truncated title,
padded episode number) pairs; `ambiguousEntries` carries the reported
original titles; `parseCrash` models the `TypeError` thrown when a
candidate file name fails to parse while being reported or bound. -/
inductive WatchError where
  | fileNotFound
  | ambiguousFiles (entries : List (String × String))
  | entryNotFound
  | ambiguousEntries (titles : List String)
  | parseCrash
  deriving DecidableEq, Repr

/-- `truncateStr` (src utils): `substring(0, length)`, with an ellipsis
appended when the string was actually shortened. -/
def truncateStr (str : String) (length : Nat) : String :=
  let substr := String.mk (str.data.take length)
  if substr.data.length < str.data.length then substr ++ "..." else str

/-- A directory entry of `readdirSync(dir, { withFileTypes: true })`. -/
structure DirEntry where
  name : String
  isFile : Bool
  deriving DecidableEq, Repr

/-- `^\[([\w|\d|\s-]+)\]` as a whole-name test: the name starts with a
bracketed release-group tag. -/
def startsWithFansubTag (name : String) : Bool :=
  match name.data with
  | '[' :: rest =>
    !(rest.takeWhile isTagChar).isEmpty &&
      ((rest.dropWhile isTagChar).head? == some ']')
  | _ => false

/-- The episode-number token of the file filter:
`epNum.length == 1 ? `- 0${epNum}` : `- ${epNum}``. -/
def epNumToken (epNum : String) : String :=
  if epNum.length == 1 then "- 0" ++ epNum else "- " ++ epNum

/-- `filterFansubFilenames` (src/unnamed/part_000, lines 71-81): keep the
regular files whose name starts with a bracketed tag, whose lowercased name
contains `epName`, and which contain the rendered episode-number token. -/
def filterFansubFilenames (files : List DirEntry) (epName : String) (epNum : String) :
    List String :=
  ((files.filter (fun f => f.isFile)).map (fun f => f.name)).filter
    (fun name =>
      startsWithFansubTag name &&
      strIncludes (strToLower name) epName &&
      strIncludes name (epNumToken epNum))

/-- `displayErrorTooManyFiles` (src/unnamed/part_000, lines 83-93), as the
list of reported (truncated title, padded episode number) pairs; `none`
models the crash raised on the first candidate whose name fails to
parse. -/
def displayErrorTooManyFiles (fileNames : List String) :
    Option (List (String × String)) :=
  match fileNames with
  | [] => some []
  | f :: rest =>
    match parseFansubFilename f with
    | .ok d =>
      (displayErrorTooManyFiles rest).map
        (fun L => (truncateStr d.title 60, d.paddedEpNum) :: L)
    | .error _ => none

/-- The candidate-file arbitration of `watchAnime`
(src/unnamed/part_000, lines 42-50): zero candidates is `FileNotFound`,
one is selected, more than one is fatal with the full reported list. -/
def resolveUniqueFile (fansubFileNames : List String) : Except WatchError String :=
  match fansubFileNames with
  | [] => .error .fileNotFound
  | [f] => .ok f
  | fs =>
    match displayErrorTooManyFiles fs with
    | some entries => .error (.ambiguousFiles entries)
    | none => .error .parseCrash

/-- `validateCachedAnime` (src/unnamed/part_000, lines 95-117): zero
matches is `EntryNotFound`, several matches are fatal listing every
original title, a unique match is returned as a deep copy together with
its index in the full cache. -/
def validateCachedAnime (fullCache : List KitsuCacheItem)
    (cache : List KitsuCacheItem) : Except WatchError (KitsuCacheItem × Nat) :=
  match cache with
  | [] => .error .entryNotFound
  | [a] => .ok (a, fullCache.findIdx (fun c => c == a))
  | l => .error (.ambiguousEntries (l.map (fun anime => anime.jpTitle)))

/-! ### Progress synchronizer (src/unnamed/part_000) -/

/-- The request body built by `buildLibPatchReqArgs`. -/
structure LibPatchBody where
  id : String
  type : String
  progress : Nat
  deriving DecidableEq, Repr

/-- `buildLibPatchReqArgs` (src/unnamed/part_000, lines 158-171). -/
def buildLibPatchReqArgs (id : String) (progress : Nat) : String × LibPatchBody :=
  ("https://kitsu.io/api/edge/library-entries/" ++ id,
   { id := id, type := "library-entries", progress := progress })

/-- `forcedEpNum || epNum`: the forced episode number when truthy
(non-zero), otherwise the file episode number. -/
def targetProgress (forcedEpNum epNum : Nat) : Nat :=
  if forcedEpNum == 0 then epNum else forcedEpNum

/-- `ProgressOptions` (src/unnamed/part_000, lines 8-19). -/
structure ProgressOptions where
  anime : KitsuCacheItem
  cacheIndex : Nat
  epNum : Nat
  forcedEpNum : Nat
  fileName : String

/-- `saveAnimeProgress` (src/unnamed/part_000, lines 119-156).  The remote
collaborator `Kitsu.updateAnime` is an oracle argument returning
`(confirmedProgress, totalEpisodeCount | absent)` per the spec's section 6
contract.  The result is the final configuration state together with the
mutated entry, or `none` when the source would throw (a new binding is
needed but the matched file name does not parse). -/
def saveAnimeProgress (remote : String × LibPatchBody → Nat × Option Nat)
    (st : SyncState) (opt : ProgressOptions) :
    Option (SyncState × KitsuCacheItem) :=
  let res := remote (buildLibPatchReqArgs opt.anime.libID
    (targetProgress opt.forcedEpNum opt.epNum))
  let progress := res.1
  let episodeCount := res.2
  let anime1 : KitsuCacheItem :=
    { opt.anime with epProgress := progress, epCount := episodeCount.getD 0 }
  if 0 < progress ∧ episodeCount = some progress then
    some ({ st with
              cache := removeAnimeFromCache st.cache anime1,
              saveCount := st.saveCount + 1 }, anime1)
  else
    match getFileBinding st.fileBindings anime1.libID with
    | some _ =>
      some ({ st with
                cache := st.cache.set opt.cacheIndex anime1,
                saveCount := st.saveCount + 1 }, anime1)
    | none =>
      match parseFansubFilename opt.fileName with
      | .ok d =>
        some ({ st with
                  fileBindings := setFileBinding st.fileBindings anime1.libID (strToLower d.title),
                  cache := st.cache.set opt.cacheIndex anime1,
                  saveCount := st.saveCount + 1 }, anime1)
      | .error _ => none

/-! ### File relocator (src/unnamed/part_000) -/

/-- Model of `path.join` for the two-segment joins used here. -/
def pathJoin (a b : String) : String := a ++ "/" ++ b

/-- The filesystem surface the relocator touches: the set of existing
directories and the set of existing file paths. -/
structure FsState where
  dirs : List String
  files : List String
  deriving DecidableEq, Repr

/-- `existsSync` on a directory path. -/
def existsSyncDir (fs : FsState) (d : String) : Bool := fs.dirs.contains d

/-- `mkdirSync`: fails when the directory already exists. -/
def mkdirSyncFs (fs : FsState) (d : String) : Except String FsState :=
  if fs.dirs.contains d then .error "EEXIST" else .ok { fs with dirs := d :: fs.dirs }

/-- `tryCreateWatchedDir` (src/unnamed/part_000, lines 62-69). -/
def tryCreateWatchedDir (workingDir : String) (fs : FsState) : Except String FsState :=
  let watchedDir := pathJoin workingDir "watched"
  if existsSyncDir fs watchedDir then .ok fs else mkdirSyncFs fs watchedDir

/-- `renameSync`: fails when the source path does not exist. -/
def renameSyncFs (fs : FsState) (src dst : String) : Except String FsState :=
  if fs.files.contains src then
    .ok { fs with files := dst :: fs.files.erase src }
  else .error "ENOENT"

/-- `moveFileToWatchedDir` (src/unnamed/part_000, lines 173-175). -/
def moveFileToWatchedDir (fileName workingDir : String) (fs : FsState) :
    Except String FsState :=
  renameSyncFs fs (pathJoin workingDir fileName)
    (pathJoin (pathJoin workingDir "watched") fileName)

/-! ### Spec-worded variants used to compare code against the spec's text -/

/-- Follows the spec's words for claim C4: "a cache entry matches when the
search term is a case-insensitive substring of its original title,
localized title, or any synonym" — i.e. both sides lowercased. -/
def specCiEntryMatches (anime : KitsuCacheItem) (term : String) : Bool :=
  strIncludes (strToLower anime.jpTitle) (strToLower term) ||
  strIncludes (strToLower anime.enTitle) (strToLower term) ||
  anime.synonyms.any (fun s => strIncludes (strToLower s) (strToLower term))

/-- Follows the spec's words for claim C4: "the search term used against
the cache is the remembered FileBinding for a library entry if one exists
for any entry whose title overlaps, otherwise the raw freeform episode
name supplied by the caller". -/
def specCacheSearchTerm (bindings : List (String × String))
    (cache : List KitsuCacheItem) (epName : String) : String :=
  match cache.findSome? (fun e =>
      if specCiEntryMatches e epName then getFileBinding bindings e.libID else none) with
  | some b => b
  | none => epName

/-- Follows the spec's words for claim C4: the cache entries matching the
spec's search term under the spec's case-insensitive matching rule. -/
def specCacheMatches (bindings : List (String × String))
    (cache : List KitsuCacheItem) (epName : String) : List KitsuCacheItem :=
  cache.filter (fun e => specCiEntryMatches e (specCacheSearchTerm bindings cache epName))

/-- Follows the spec's words for claim C6: candidate-file filtering with a
genuinely case-insensitive substring test for the search term (both the
name and the term lowercased). -/
def specFilterFansubFilenames (files : List DirEntry) (epName : String)
    (epNum : String) : List String :=
  ((files.filter (fun f => f.isFile)).map (fun f => f.name)).filter
    (fun name =>
      startsWithFansubTag name &&
      strIncludes (strToLower name) (strToLower epName) &&
      strIncludes name (epNumToken epNum))

/-! ### Decidability of result equality, and concrete sample data -/

deriving instance DecidableEq for Except

/-- Concrete sample: an entry one episode short of completion. -/
def sampleNearDone : KitsuCacheItem :=
  { libID := "lib1", jpTitle := "Alpha", enTitle := "Alpha EN", synonyms := [],
    epProgress := 11, epCount := 12 }

/-- Concrete sample: a second, unrelated cache entry. -/
def sampleOther : KitsuCacheItem :=
  { libID := "lib2", jpTitle := "Beta", enTitle := "", synonyms := [],
    epProgress := 3, epCount := 24 }

/-- Concrete sample: a state holding only `sampleNearDone`, no bindings. -/
def sampleState : SyncState :=
  { cache := [sampleNearDone], fileBindings := [], saveCount := 0 }

/-- Concrete sample: a two-entry state with a binding for `sampleNearDone`. -/
def sampleStateBound : SyncState :=
  { cache := [sampleNearDone, sampleOther], fileBindings := [("lib1", "alpha")],
    saveCount := 0 }

/-- Concrete sample: synchronizer options at the completion boundary. -/
def sampleOpt : ProgressOptions :=
  { anime := sampleNearDone, cacheIndex := 0, epNum := 12, forcedEpNum := 0,
    fileName := "[G] Alpha - 12.mkv" }

/-- Concrete sample: a remote oracle confirming progress 12 of 12. -/
def sampleRemoteDone : String × LibPatchBody → Nat × Option Nat := fun _ => (12, some 12)

/-- Concrete sample: a remote oracle confirming progress 10 of 12. -/
def sampleRemoteMid : String × LibPatchBody → Nat × Option Nat := fun _ => (10, some 12)

/-- Concrete sample: `sampleNearDone` after the completed update. -/
def sampleDoneEntry : KitsuCacheItem :=
  { libID := "lib1", jpTitle := "Alpha", enTitle := "Alpha EN", synonyms := [],
    epProgress := 12, epCount := 12 }

/-- Concrete sample: the state after the completed update evicted the entry. -/
def sampleDoneState : SyncState :=
  { cache := [], fileBindings := [], saveCount := 1 }

/-- Concrete sample: `sampleNearDone` after a mid-season update to episode 10. -/
def sampleMidEntry : KitsuCacheItem :=
  { libID := "lib1", jpTitle := "Alpha", enTitle := "Alpha EN", synonyms := [],
    epProgress := 10, epCount := 12 }

/-- Concrete sample: `sampleStateBound` after the mid-season write-back. -/
def sampleStMid : SyncState :=
  { cache := [sampleMidEntry, sampleOther], fileBindings := [("lib1", "alpha")],
    saveCount := 1 }

/-- Concrete sample: a cache entry with a mixed-case original title. -/
def sampleAlphaEntry : KitsuCacheItem :=
  { libID := "lib1", jpTitle := "Alpha", enTitle := "", synonyms := [],
    epProgress := 0, epCount := 0 }

/-- Concrete sample: a cache entry with an upper-case original title. -/
def sampleUpperEntry : KitsuCacheItem :=
  { libID := "lib2", jpTitle := "ALPHA", enTitle := "", synonyms := [],
    epProgress := 0, epCount := 0 }

/-! ### Claim C8: the canonical parse example -/

/-- Claim C8: `parse("[Group] Show Title - 07.mkv")` succeeds with episode
number 7, group "Group" and title "Show Title"; the captured title text
ends in a lone hyphen separator which is trimmed off the returned title. -/
theorem parse_example_recovers_fields_c8 :
    parseFansubFilename "[Group] Show Title - 07.mkv" =
      .ok { fansub := "Group", title := "Show Title", epNum := some 7,
            paddedEpNum := "07", season := none } ∧
    fansubExec "[Group] Show Title - 07.mkv" =
      some { fansub := "Group", title := "Show Title -", g3 := none,
             g4 := "07", g56 := none } ∧
    trimTitle "Show Title -" = "Show Title" := by
  refine ⟨rfl, rfl, rfl⟩

/-! ### Claim C5: failure classification of unparsable names -/

/-- Claim C5: for every file name rejected by the release-group grammar,
the parser reports the batch-release failure exactly when the name
case-insensitively contains "(batch)" or "[batch]", and the
unrecognized-format failure otherwise. -/
theorem parse_failure_classification_c5 (name : String)
    (h : fansubExec name = none) :
    (containsBatch name = true →
      parseFansubFilename name =
        .error { parseError := batchMsg, fileName := name }) ∧
    (containsBatch name = false →
      parseFansubFilename name =
        .error { parseError := unrecognizedMsg, fileName := name }) := by
  unfold parseFansubFilename
  rw [h]
  constructor <;> intro hb <;> simp [hb]

/-- Witness for claim C5: `"[Group] Show Title (Batch).mkv"` does not match
the grammar, contains "(batch)" case-insensitively, and yields the
batch-release failure (not the unrecognized-format one). -/
theorem parse_failure_classification_c5_witness :
    fansubExec "[Group] Show Title (Batch).mkv" = none ∧
    containsBatch "[Group] Show Title (Batch).mkv" = true ∧
    parseFansubFilename "[Group] Show Title (Batch).mkv" =
      .error { parseError := batchMsg,
               fileName := "[Group] Show Title (Batch).mkv" } := by
  refine ⟨rfl, by decide, ?_⟩
  exact (parse_failure_classification_c5 "[Group] Show Title (Batch).mkv" rfl).1 (by decide)

/-! ### Claims C4 and C6: search-term handling of the resolver -/

/-- Counterexample for claim C4: the code searches the cache with the raw
caller-supplied name and only lowercases the titles.  With a binding
`("lib1", "beta")` remembered for the sole entry titled "Alpha", the code
still matches it by the raw name "alpha", while the spec's rule (search
with the binding, case-insensitively) matches nothing; and with an
upper-case term "Alpha" the code matches nothing although the term is a
case-insensitive substring of the title "ALPHA". -/
theorem cache_search_counterexample_c4 :
    cacheFilterByName [sampleAlphaEntry] "alpha" = [sampleAlphaEntry] ∧
    specCacheMatches [("lib1", "beta")] [sampleAlphaEntry] "alpha" = [] ∧
    cacheFilterByName [sampleUpperEntry] "Alpha" = [] ∧
    specCiEntryMatches sampleUpperEntry "Alpha" = true := by
  refine ⟨by decide, by decide, by decide, by decide⟩

/-- Claim C4 (amended): the cache is always searched with the raw freeform
episode name, an entry matching exactly when that name occurs verbatim in
the lowercased original title, lowercased localized title, or a lowercased
synonym; the remembered file binding, when one exists for the resolved
entry, replaces the raw name only as the candidate-file search term. -/
theorem cache_search_spec_c4 :
    (∀ (cache : List KitsuCacheItem) (epName : String) (e : KitsuCacheItem),
        e ∈ cacheFilterByName cache epName ↔
          e ∈ cache ∧ entryMatchesSearch e epName = true) ∧
    (∀ (bindings : List (String × String)) (libID epName : String),
        (∀ t, getFileBinding bindings libID = some t →
          fileSearchTitle bindings libID epName = t) ∧
        (getFileBinding bindings libID = none →
          fileSearchTitle bindings libID epName = epName)) := by
  constructor
  · intro cache epName e
    unfold cacheFilterByName
    exact List.mem_filter
  · intro bindings libID epName
    constructor
    · intro t ht
      unfold fileSearchTitle
      rw [ht]
      rfl
    · intro hn
      unfold fileSearchTitle
      rw [hn]
      rfl

/-- Witness for claim C4 at concrete inputs: the matching
characterization at the "Alpha" entry, a binding overriding the file
search term, and the fallback to the raw name. -/
theorem cache_search_spec_c4_witness :
    (sampleAlphaEntry ∈ cacheFilterByName [sampleAlphaEntry] "alpha" ↔
      sampleAlphaEntry ∈ [sampleAlphaEntry] ∧
        entryMatchesSearch sampleAlphaEntry "alpha" = true) ∧
    fileSearchTitle [("lib1", "beta")] "lib1" "alpha" = "beta" ∧
    fileSearchTitle [] "lib1" "alpha" = "alpha" :=
  ⟨cache_search_spec_c4.1 [sampleAlphaEntry] "alpha" sampleAlphaEntry,
   (cache_search_spec_c4.2 [("lib1", "beta")] "lib1" "alpha").1 "beta" (by decide),
   (cache_search_spec_c4.2 [] "lib1" "alpha").2 (by decide)⟩

/-- Counterexample for claim C6: with search term "A" the file
"[G] A - 07.mkv" satisfies the claim's three conditions (bracketed tag,
case-insensitive substring, episode token) yet the code keeps nothing,
because only the file name is lowercased, never the search term. -/
theorem candidate_filter_counterexample_c6 :
    filterFansubFilenames [{ name := "[G] A - 07.mkv", isFile := true }] "A" "7" = [] ∧
    specFilterFansubFilenames [{ name := "[G] A - 07.mkv", isFile := true }] "A" "7" =
      ["[G] A - 07.mkv"] := by
  refine ⟨by decide, by decide⟩

/-- Claim C6 (amended): candidate-file filtering keeps exactly the regular
files whose name starts with a bracketed tag, whose lowercased name
contains the search term verbatim (case-insensitive in the file name only),
and which contain the rendered `- 0N` / `- NN` episode token as an exact
substring; on the claim's example exactly "[G] A - 07.mkv" is returned. -/
theorem candidate_filter_spec_c6 :
    (∀ (files : List DirEntry) (epName epNum name : String),
        name ∈ filterFansubFilenames files epName epNum ↔
          ((∃ e, e ∈ files ∧ e.isFile = true ∧ e.name = name) ∧
            startsWithFansubTag name = true ∧
            strIncludes (strToLower name) epName = true ∧
            strIncludes name (epNumToken epNum) = true)) ∧
    filterFansubFilenames
      [{ name := "[G] A - 07.mkv", isFile := true },
       { name := "[G] B - 07.mkv", isFile := true }] "a" "7" = ["[G] A - 07.mkv"] := by
  constructor
  · intro files epName epNum name
    unfold filterFansubFilenames
    rw [List.mem_filter, List.mem_map]
    constructor
    · rintro ⟨⟨e, he, rfl⟩, hp⟩
      rw [List.mem_filter] at he
      rw [Bool.and_eq_true, Bool.and_eq_true] at hp
      exact ⟨⟨e, he.1, he.2, rfl⟩, hp.1.1, hp.1.2, hp.2⟩
    · rintro ⟨⟨e, he, hf, rfl⟩, h1, h2, h3⟩
      refine ⟨⟨e, List.mem_filter.mpr ⟨he, hf⟩, rfl⟩, ?_⟩
      rw [Bool.and_eq_true, Bool.and_eq_true]
      exact ⟨⟨h1, h2⟩, h3⟩
  · decide

/-- Witness for claim C6 at the claim's example input. -/
theorem candidate_filter_spec_c6_witness :
    "[G] A - 07.mkv" ∈ filterFansubFilenames
        [{ name := "[G] A - 07.mkv", isFile := true },
         { name := "[G] B - 07.mkv", isFile := true }] "a" "7" ↔
      ((∃ e, e ∈ [({ name := "[G] A - 07.mkv", isFile := true } : DirEntry),
                  { name := "[G] B - 07.mkv", isFile := true }] ∧
          e.isFile = true ∧ e.name = "[G] A - 07.mkv") ∧
        startsWithFansubTag "[G] A - 07.mkv" = true ∧
        strIncludes (strToLower "[G] A - 07.mkv") "a" = true ∧
        strIncludes "[G] A - 07.mkv" (epNumToken "7") = true) :=
  candidate_filter_spec_c6.1
    [{ name := "[G] A - 07.mkv", isFile := true },
     { name := "[G] B - 07.mkv", isFile := true }] "a" "7" "[G] A - 07.mkv"

/-! ### Claims C1, C2, C3, C10: the progress synchronizer -/

/-- Claim C1: when the remote update confirms a positive progress equal to
the total episode count, the synchronizer evicts the entry from the cache,
leaves the binding store untouched, persists the configuration exactly
once, and performs no cache write-back: the final cache is the original
one with the entry removed and contains no entry with its library id. -/
theorem completion_evicts_entry_c1
    (remote : String × LibPatchBody → Nat × Option Nat)
    (st : SyncState) (opt : ProgressOptions) (p : Nat)
    (st' : SyncState) (a' : KitsuCacheItem)
    (hremote : remote (buildLibPatchReqArgs opt.anime.libID
        (targetProgress opt.forcedEpNum opt.epNum)) = (p, some p))
    (hp : 0 < p)
    (h : saveAnimeProgress remote st opt = some (st', a')) :
    a'.libID = opt.anime.libID ∧
    st'.cache = removeAnimeFromCache st.cache a' ∧
    st'.fileBindings = st.fileBindings ∧
    st'.saveCount = st.saveCount + 1 ∧
    ∀ c ∈ st'.cache, c.libID ≠ opt.anime.libID := by
  simp only [saveAnimeProgress, hremote] at h
  split at h
  · simp only [Option.some.injEq, Prod.mk.injEq] at h
    obtain ⟨h1, h2⟩ := h
    subst h2
    subst h1
    refine ⟨rfl, rfl, rfl, rfl, ?_⟩
    intro c hc
    unfold removeAnimeFromCache at hc
    rw [List.mem_filter] at hc
    simpa using hc.2
  · rename_i hcond
    exact absurd ⟨hp, trivial⟩ hcond

/-- Witness for claim C1: an entry at progress 11 of 12 whose update
confirms 12 of 12 is evicted, with the binding store and save counter as
the claim requires. -/
theorem completion_evicts_entry_c1_witness :
    sampleDoneEntry.libID = sampleOpt.anime.libID ∧
    sampleDoneState.cache = removeAnimeFromCache sampleState.cache sampleDoneEntry ∧
    sampleDoneState.fileBindings = sampleState.fileBindings ∧
    sampleDoneState.saveCount = sampleState.saveCount + 1 :=
  let H := completion_evicts_entry_c1 sampleRemoteDone sampleState sampleOpt 12
    sampleDoneState sampleDoneEntry rfl (by decide) (by decide)
  ⟨H.1, H.2.1, H.2.2.1, H.2.2.2.1⟩

/-- Claim C2: the remote update is issued at the forced episode number when
that is non-zero and at the file episode number otherwise, and afterwards
the entry carries exactly the confirmed progress and the returned episode
count (zero when the remote returned none). -/
theorem target_and_reconcile_c2
    (remote : String × LibPatchBody → Nat × Option Nat)
    (st : SyncState) (opt : ProgressOptions) (st' : SyncState) (a' : KitsuCacheItem)
    (h : saveAnimeProgress remote st opt = some (st', a')) :
    a'.epProgress = (remote (buildLibPatchReqArgs opt.anime.libID
        (targetProgress opt.forcedEpNum opt.epNum))).1 ∧
    a'.epCount = ((remote (buildLibPatchReqArgs opt.anime.libID
        (targetProgress opt.forcedEpNum opt.epNum))).2).getD 0 ∧
    (opt.forcedEpNum ≠ 0 → targetProgress opt.forcedEpNum opt.epNum = opt.forcedEpNum) ∧
    (opt.forcedEpNum = 0 → targetProgress opt.forcedEpNum opt.epNum = opt.epNum) := by
  refine ⟨?_, ?_, ?_, ?_⟩
  · simp only [saveAnimeProgress] at h
    split at h
    · simp only [Option.some.injEq, Prod.mk.injEq] at h
      rw [← h.2]
    · split at h
      · simp only [Option.some.injEq, Prod.mk.injEq] at h
        rw [← h.2]
      · split at h
        · simp only [Option.some.injEq, Prod.mk.injEq] at h
          rw [← h.2]
        · cases h
  · simp only [saveAnimeProgress] at h
    split at h
    · simp only [Option.some.injEq, Prod.mk.injEq] at h
      rw [← h.2]
    · split at h
      · simp only [Option.some.injEq, Prod.mk.injEq] at h
        rw [← h.2]
      · split at h
        · simp only [Option.some.injEq, Prod.mk.injEq] at h
          rw [← h.2]
        · cases h
  · intro hf
    unfold targetProgress
    simp [hf]
  · intro hf
    unfold targetProgress
    simp [hf]

/-- Witness for claim C2: the mid-season update at 10 of 12 with no forced
number reconciles the entry to the confirmed values. -/
theorem target_and_reconcile_c2_witness :
    sampleMidEntry.epProgress =
      (sampleRemoteMid (buildLibPatchReqArgs sampleOpt.anime.libID
        (targetProgress sampleOpt.forcedEpNum sampleOpt.epNum))).1 ∧
    sampleMidEntry.epCount =
      ((sampleRemoteMid (buildLibPatchReqArgs sampleOpt.anime.libID
        (targetProgress sampleOpt.forcedEpNum sampleOpt.epNum))).2).getD 0 ∧
    (sampleOpt.forcedEpNum ≠ 0 →
      targetProgress sampleOpt.forcedEpNum sampleOpt.epNum = sampleOpt.forcedEpNum) ∧
    (sampleOpt.forcedEpNum = 0 →
      targetProgress sampleOpt.forcedEpNum sampleOpt.epNum = sampleOpt.epNum) :=
  target_and_reconcile_c2 sampleRemoteMid sampleStateBound sampleOpt sampleStMid
    sampleMidEntry (by decide)

/-- A successful `find?` on a list is unchanged by appending entries. -/
theorem find?_append_of_some {α : Type} (l₁ l₂ : List α) (p : α → Bool) (a : α)
    (h : l₁.find? p = some a) : (l₁ ++ l₂).find? p = some a := by
  induction l₁ with
  | nil => simp [List.find?] at h
  | cons x xs ih =>
    rw [List.cons_append]
    by_cases hx : p x
    · rw [List.find?_cons_of_pos _ hx] at h ⊢
      exact h
    · rw [List.find?_cons_of_neg _ hx] at h ⊢
      exact ih h

/-- Recording a new binding never changes the value an existing lookup
returns. -/
theorem getFileBinding_setFileBinding_preserved
    (b : List (String × String)) (lib x id t : String)
    (h : getFileBinding b id = some t) :
    getFileBinding (setFileBinding b lib x) id = some t := by
  unfold getFileBinding at h ⊢
  obtain ⟨pr, hfind, hsnd⟩ := Option.map_eq_some'.mp h
  unfold setFileBinding
  rw [find?_append_of_some _ _ _ _ hfind]
  simpa using hsnd

/-- Case analysis of `saveAnimeProgress`: the returned entry always carries
the reconciled progress and count, and the final state is the eviction
state, the plain write-back state, or the write-back state with one new
binding recorded from the parsed file title. -/
theorem saveAnimeProgress_cases
    (remote : String × LibPatchBody → Nat × Option Nat)
    (st : SyncState) (opt : ProgressOptions) (st' : SyncState) (a' : KitsuCacheItem)
    (h : saveAnimeProgress remote st opt = some (st', a')) :
    a' = { opt.anime with
             epProgress := (remote (buildLibPatchReqArgs opt.anime.libID
               (targetProgress opt.forcedEpNum opt.epNum))).1,
             epCount := ((remote (buildLibPatchReqArgs opt.anime.libID
               (targetProgress opt.forcedEpNum opt.epNum))).2).getD 0 } ∧
    (st' = { st with
               cache := removeAnimeFromCache st.cache a',
               saveCount := st.saveCount + 1 } ∨
     (st' = { st with
                cache := st.cache.set opt.cacheIndex a',
                saveCount := st.saveCount + 1 } ∧
      ∃ t, getFileBinding st.fileBindings opt.anime.libID = some t) ∨
     (getFileBinding st.fileBindings opt.anime.libID = none ∧
      ∃ d, parseFansubFilename opt.fileName = .ok d ∧
        st' = { st with
                  fileBindings := setFileBinding st.fileBindings opt.anime.libID
                    (strToLower d.title),
                  cache := st.cache.set opt.cacheIndex a',
                  saveCount := st.saveCount + 1 })) := by
  simp only [saveAnimeProgress] at h
  split at h
  · simp only [Option.some.injEq, Prod.mk.injEq] at h
    obtain ⟨h1, h2⟩ := h
    subst h2
    exact ⟨rfl, .inl h1.symm⟩
  · split at h
    · rename_i t hbind
      simp only [Option.some.injEq, Prod.mk.injEq] at h
      obtain ⟨h1, h2⟩ := h
      subst h2
      exact ⟨rfl, .inr (.inl ⟨h1.symm, t, hbind⟩)⟩
    · rename_i hbind
      split at h
      · rename_i d hparse
        simp only [Option.some.injEq, Prod.mk.injEq] at h
        obtain ⟨h1, h2⟩ := h
        subst h2
        exact ⟨rfl, .inr (.inr ⟨hbind, d, hparse, h1.symm⟩)⟩
      · cases h

/-- Claim C3: a stored binding is never altered by a synchronization —
every existing lookup returns the same value afterwards — and the binding
store either stays identical or gains exactly one binding, for an entry
that had none, holding the lowercased title parsed from the matched file
name. -/
theorem binding_stickiness_c3
    (remote : String × LibPatchBody → Nat × Option Nat)
    (st : SyncState) (opt : ProgressOptions) (st' : SyncState) (a' : KitsuCacheItem)
    (h : saveAnimeProgress remote st opt = some (st', a')) :
    (∀ id t, getFileBinding st.fileBindings id = some t →
      getFileBinding st'.fileBindings id = some t) ∧
    (st'.fileBindings = st.fileBindings ∨
     (getFileBinding st.fileBindings opt.anime.libID = none ∧
      ∃ d, parseFansubFilename opt.fileName = .ok d ∧
        st'.fileBindings = setFileBinding st.fileBindings opt.anime.libID
          (strToLower d.title))) := by
  obtain ⟨ha, hcases⟩ := saveAnimeProgress_cases remote st opt st' a' h
  rcases hcases with h1 | ⟨h1, t, hb⟩ | ⟨hb, d, hp, h1⟩ <;> subst h1
  · exact ⟨fun id t ht => ht, .inl rfl⟩
  · exact ⟨fun id t ht => ht, .inl rfl⟩
  · refine ⟨?_, .inr ⟨hb, d, hp, rfl⟩⟩
    intro id t ht
    exact getFileBinding_setFileBinding_preserved _ _ _ _ _ ht

/-- Witness for claim C3: the binding `("lib1", "alpha")` survives the
mid-season synchronization unchanged. -/
theorem binding_stickiness_c3_witness :
    getFileBinding sampleStMid.fileBindings "lib1" = some "alpha" :=
  (binding_stickiness_c3 sampleRemoteMid sampleStateBound sampleOpt sampleStMid
    sampleMidEntry (by decide)).1 "lib1" "alpha" (by decide)

/-- Claim C10: the synchronizer receives a copy of the matched entry and
its cache index, and the cache changes only through the single write-back
of that copy at that index — every other position unchanged — or through
eviction on completion, which removes exactly the entries with the
updated entry's library id. -/
theorem sync_frame_c10
    (remote : String × LibPatchBody → Nat × Option Nat)
    (st : SyncState) (opt : ProgressOptions) (st' : SyncState) (a' : KitsuCacheItem)
    (h : saveAnimeProgress remote st opt = some (st', a')) :
    a'.libID = opt.anime.libID ∧
    ((st'.cache = st.cache.set opt.cacheIndex a' ∧
        ∀ j, j ≠ opt.cacheIndex → st'.cache[j]? = st.cache[j]?) ∨
     (st'.cache = removeAnimeFromCache st.cache a' ∧
        0 < a'.epProgress ∧ a'.epProgress = a'.epCount ∧
        (∀ c ∈ st.cache, c.libID ≠ opt.anime.libID → c ∈ st'.cache) ∧
        (∀ c ∈ st'.cache, c ∈ st.cache))) := by
  simp only [saveAnimeProgress] at h
  split at h
  · rename_i hcond
    simp only [Option.some.injEq, Prod.mk.injEq] at h
    obtain ⟨h1, h2⟩ := h
    subst h2
    subst h1
    refine ⟨rfl, .inr ⟨rfl, hcond.1, ?_, ?_, ?_⟩⟩
    · simp [hcond.2]
    · intro c hc hne
      unfold removeAnimeFromCache
      rw [List.mem_filter]
      exact ⟨hc, by simpa using hne⟩
    · intro c hc
      unfold removeAnimeFromCache at hc
      exact (List.mem_filter.mp hc).1
  · split at h
    · simp only [Option.some.injEq, Prod.mk.injEq] at h
      obtain ⟨h1, h2⟩ := h
      subst h2
      subst h1
      exact ⟨rfl, .inl ⟨rfl, fun j hj => List.getElem?_set_ne (fun e => hj e.symm)⟩⟩
    · split at h
      · simp only [Option.some.injEq, Prod.mk.injEq] at h
        obtain ⟨h1, h2⟩ := h
        subst h2
        subst h1
        exact ⟨rfl, .inl ⟨rfl, fun j hj => List.getElem?_set_ne (fun e => hj e.symm)⟩⟩
      · cases h

/-- Witness for claim C10: in the mid-season synchronization the entry at
the other index is untouched. -/
theorem sync_frame_c10_witness :
    sampleMidEntry.libID = sampleOpt.anime.libID ∧
    sampleStMid.cache[1]? = sampleStateBound.cache[1]? := by
  have H := sync_frame_c10 sampleRemoteMid sampleStateBound sampleOpt sampleStMid
    sampleMidEntry (by decide)
  refine ⟨H.1, ?_⟩
  rcases H.2 with ⟨_, hframe⟩ | ⟨hev, _⟩
  · exact hframe 1 (by decide)
  · exact absurd hev (by decide)

/-! ### Claim C7: ambiguity is fatal and fully reported -/

/-- When every candidate parses, the error report is built (no crash). -/
theorem displayErrorTooManyFiles_isSome (fileNames : List String)
    (hp : ∀ f ∈ fileNames, ∃ d, parseFansubFilename f = .ok d) :
    ∃ L, displayErrorTooManyFiles fileNames = some L := by
  induction fileNames with
  | nil => exact ⟨[], rfl⟩
  | cons f rest ih =>
    obtain ⟨d, hd⟩ := hp f (List.mem_cons_self f rest)
    obtain ⟨L, hL⟩ := ih (fun g hg => hp g (List.mem_cons_of_mem f hg))
    refine ⟨(truncateStr d.title 60, d.paddedEpNum) :: L, ?_⟩
    unfold displayErrorTooManyFiles
    rw [hd, hL]
    rfl

/-- Every candidate's reported line is in the built report. -/
theorem displayErrorTooManyFiles_mem (fileNames : List String)
    (L : List (String × String))
    (hL : displayErrorTooManyFiles fileNames = some L)
    (f : String) (hf : f ∈ fileNames) (d : FansubFilenameData)
    (hd : parseFansubFilename f = .ok d) :
    (truncateStr d.title 60, d.paddedEpNum) ∈ L := by
  induction fileNames generalizing L with
  | nil => cases hf
  | cons g rest ih =>
    unfold displayErrorTooManyFiles at hL
    cases hpg : parseFansubFilename g with
    | error e => rw [hpg] at hL; cases hL
    | ok dg =>
      rw [hpg] at hL
      cases hrest : displayErrorTooManyFiles rest with
      | none => rw [hrest] at hL; cases hL
      | some L' =>
        rw [hrest] at hL
        simp only [Option.map_some', Option.some.injEq] at hL
        subst hL
        cases hf with
        | head =>
          rw [hpg] at hd
          cases hd
          exact List.mem_cons_self _ _
        | tail _ hf' =>
          exact List.mem_cons_of_mem _ (ih L' hrest hf')

/-- Counterexample for claim C7: the candidate "[G]A - 07.mkv" (no space
after the bracket tag) passes the candidate filter yet fails the filename
grammar, so with two matching candidates the error report crashes while
being built and no candidate list at all is reported — the invocation
dies with the crash, not with the claim's AmbiguousFiles report. -/
theorem ambiguity_report_counterexample_c7 :
    filterFansubFilenames
      [{ name := "[G]A - 07.mkv", isFile := true },
       { name := "[G] B - 07.mkv", isFile := true }] "0" "7" =
      ["[G]A - 07.mkv", "[G] B - 07.mkv"] ∧
    fansubExec "[G]A - 07.mkv" = none ∧
    displayErrorTooManyFiles ["[G]A - 07.mkv", "[G] B - 07.mkv"] = none ∧
    resolveUniqueFile ["[G]A - 07.mkv", "[G] B - 07.mkv"] = .error .parseCrash := by
  refine ⟨by decide, by decide, by decide, by decide⟩

/-- Claim C7 (amended): more than one candidate file or more than one
matching cache entry is always fatal and a single candidate is never
silently auto-selected; more than one matching cache entry yields the
AmbiguousEntries failure listing every matching entry's original title;
more than one candidate file yields the AmbiguousFiles failure reporting
every ambiguous file's parsed title truncated to the 60-character display
bound — provided every candidate name parses, since a candidate that fails
the filename grammar makes the report itself crash (still fatal) before
any candidate is listed. -/
theorem ambiguity_reported_c7
    (fileNames : List String) (fullCache cacheMatches : List KitsuCacheItem)
    (hf : 1 < fileNames.length)
    (hc : 1 < cacheMatches.length) :
    (∃ e, resolveUniqueFile fileNames = .error e) ∧
    ((∀ f ∈ fileNames, ∃ d, parseFansubFilename f = .ok d) →
      ∃ L, resolveUniqueFile fileNames = .error (.ambiguousFiles L) ∧
        ∀ f ∈ fileNames, ∀ d, parseFansubFilename f = .ok d →
          (truncateStr d.title 60, d.paddedEpNum) ∈ L) ∧
    validateCachedAnime fullCache cacheMatches =
      .error (.ambiguousEntries (cacheMatches.map (fun a => a.jpTitle))) := by
  refine ⟨?_, ?_, ?_⟩
  · match fileNames, hf with
    | f1 :: f2 :: rest, _ =>
      cases hD : displayErrorTooManyFiles (f1 :: f2 :: rest) with
      | some L => exact ⟨.ambiguousFiles L, by simp only [resolveUniqueFile, hD]⟩
      | none => exact ⟨.parseCrash, by simp only [resolveUniqueFile, hD]⟩
  · intro hp
    obtain ⟨L, hL⟩ := displayErrorTooManyFiles_isSome fileNames hp
    refine ⟨L, ?_, fun f hmem d hd =>
      displayErrorTooManyFiles_mem fileNames L hL f hmem d hd⟩
    match fileNames, hf with
    | f1 :: f2 :: rest, _ =>
      simp only [resolveUniqueFile, hL]
  · match cacheMatches, hc with
    | a :: b :: rest, _ =>
      unfold validateCachedAnime
      rfl

/-- Witness for claim C7 on two concrete files and two matching entries:
the exact reported payloads. -/
theorem ambiguity_reported_c7_witness :
    resolveUniqueFile ["[G] A - 07.mkv", "[G] B - 07.mkv"] =
      .error (.ambiguousFiles [("A", "07"), ("B", "07")]) ∧
    validateCachedAnime [sampleNearDone, sampleOther] [sampleNearDone, sampleOther] =
      .error (.ambiguousEntries ["Alpha", "Beta"]) := by
  have hp : ∀ f ∈ ["[G] A - 07.mkv", "[G] B - 07.mkv"],
      ∃ d, parseFansubFilename f = .ok d := by
    intro f hf
    cases hf with
    | head => exact ⟨_, rfl⟩
    | tail _ hf' =>
      cases hf' with
      | head => exact ⟨_, rfl⟩
      | tail _ h0 => cases h0
  have H := ambiguity_reported_c7 ["[G] A - 07.mkv", "[G] B - 07.mkv"]
    [sampleNearDone, sampleOther] [sampleNearDone, sampleOther]
    (by decide) (by decide)
  obtain ⟨L, hres, -⟩ := H.2.1 hp
  exact ⟨by decide, H.2.2⟩

/-! ### Claim C9: relocation of the consumed file -/

/-- Claim C9: creating the `watched` directory is idempotent — the
existence check short-circuits creation, so a run on a state where the
directory already exists returns it unchanged and raises no error — and
the consumed file is renamed into that directory under the same base
name. -/
theorem relocation_c9 (workingDir : String) (fs : FsState) :
    (∃ fs', tryCreateWatchedDir workingDir fs = .ok fs' ∧
        tryCreateWatchedDir workingDir fs' = .ok fs' ∧
        fs'.files = fs.files ∧
        (existsSyncDir fs (pathJoin workingDir "watched") = true → fs' = fs)) ∧
    (∀ fileName, fs.files.contains (pathJoin workingDir fileName) = true →
        moveFileToWatchedDir fileName workingDir fs =
          .ok { fs with
                  files := pathJoin (pathJoin workingDir "watched") fileName ::
                    fs.files.erase (pathJoin workingDir fileName) }) := by
  constructor
  · by_cases hex : existsSyncDir fs (pathJoin workingDir "watched") = true
    · refine ⟨fs, ?_, ?_, rfl, fun _ => rfl⟩ <;>
        · unfold tryCreateWatchedDir
          rw [if_pos hex]
    · refine ⟨{ fs with dirs := pathJoin workingDir "watched" :: fs.dirs }, ?_, ?_, rfl, ?_⟩
      · unfold tryCreateWatchedDir mkdirSyncFs
        rw [if_neg hex]
        unfold existsSyncDir at hex
        rw [if_neg (by simpa using hex)]
      · unfold tryCreateWatchedDir existsSyncDir
        rw [if_pos (by simp [List.contains_cons])]
      · intro hcontra
        exact absurd hcontra hex
  · intro fileName hmem
    unfold moveFileToWatchedDir renameSyncFs
    rw [if_pos hmem]

/-- Witness for claim C9: the `watched` directory is created once, a
second run returns the state unchanged, and the file moves under its base
name. -/
theorem relocation_c9_witness :
    tryCreateWatchedDir "dir" { dirs := [], files := ["dir/a.mkv"] } =
      .ok { dirs := ["dir/watched"], files := ["dir/a.mkv"] } ∧
    tryCreateWatchedDir "dir" { dirs := ["dir/watched"], files := ["dir/a.mkv"] } =
      .ok { dirs := ["dir/watched"], files := ["dir/a.mkv"] } ∧
    moveFileToWatchedDir "a.mkv" "dir" { dirs := ["dir/watched"], files := ["dir/a.mkv"] } =
      .ok { dirs := ["dir/watched"], files := ["dir/watched/a.mkv"] } := by
  refine ⟨by decide, by decide, ?_⟩
  exact (relocation_c9 "dir" { dirs := ["dir/watched"], files := ["dir/a.mkv"] }).2
    "a.mkv" (by decide)
